import Mathlib

set_option maxHeartbeats 1000000

/-!
Shallow embedding of the blog-app backend (src/backend/models/Post.js).

The file models, as pure Lean functions over `String`/`List`:
  * the slug engine of the mongoose `PostSchema.pre` validate hook (slugify base,
    sequential `-1`, `-2`, ... collision probe against the existing slugs);
  * the field normalization and validation performed by the route handlers
    (`!title || !content`, trimmed length bounds, tag processing) and by the
    schema (maxlength bounds, cover-image URL pattern);
  * the CRUD route handlers (list pagination options, get/update/delete with
    ObjectId format check, not-found handling, and `findByIdAndUpdate`
    semantics, which does not run the `PostSchema.pre` validate document middleware).

JavaScript strings are modelled as Lean `String`; the handful of string
operations the source uses (trim, split on comma, toLowerCase on ASCII,
decimal rendering of the probe counter) are given explicit structural
definitions so that everything evaluates by `decide`/`rfl`.
-/

/-- Decimal digit character for a digit value below ten (used only with
values below ten; larger values collapse to the last pattern). -/
def digitChar10 (d : Nat) : Char :=
  match d with
  | 0 => '0'
  | 1 => '1'
  | 2 => '2'
  | 3 => '3'
  | 4 => '4'
  | 5 => '5'
  | 6 => '6'
  | 7 => '7'
  | 8 => '8'
  | _ => '9'

/-- Fuel-driven most-significant-digit-first decimal rendering accumulator.
With fuel at least the number rendered, this is the standard decimal
rendering (no leading zeros), matching the JavaScript template literal
`${counter}` used by the slug hook. -/
def natDecAux : Nat → Nat → List Char → List Char
  | 0, _, acc => acc
  | fuel + 1, n, acc =>
    if n < 10 then digitChar10 n :: acc
    else natDecAux fuel (n / 10) (digitChar10 (n % 10) :: acc)

/-- Decimal rendering of a natural number, as in the JS string interpolation
of the slug counter. -/
def natDec (n : Nat) : String := ⟨natDecAux (n + 1) n []⟩

/-- Fold a list of decimal digit characters onto an accumulator; left inverse
of `natDecAux` used to prove `natDec` injective. -/
def decodeDec (a : Nat) (cs : List Char) : Nat :=
  cs.foldl (fun x c => x * 10 + (c.toNat - 48)) a

/-- Whitespace trim on a character list: drop whitespace from both ends.
Models JavaScript `String.prototype.trim` for the ASCII inputs the claims
concern. -/
def trimListWs (l : List Char) : List Char :=
  ((l.dropWhile Char.isWhitespace).reverse.dropWhile Char.isWhitespace).reverse

/-- Model of JavaScript `s.trim()`. -/
def jsTrim (s : String) : String := ⟨trimListWs s.data⟩

/-- Split a character list on commas; every comma is a separator and empty
fields are kept, as in JavaScript `s.split` on a comma. -/
def splitCommaAux : List Char → List Char → List (List Char)
  | [], acc => [acc.reverse]
  | c :: rest, acc =>
    if c = ',' then acc.reverse :: splitCommaAux rest []
    else splitCommaAux rest (c :: acc)

/-- Model of JavaScript `s.split` on a comma. -/
def jsSplitComma (s : String) : List String :=
  (splitCommaAux s.data []).map (fun l => ⟨l⟩)

/-- ASCII lower-casing of one character, as JavaScript `toLowerCase` acts on
the ASCII range. -/
def asciiToLower (c : Char) : Char :=
  if 65 ≤ c.toNat ∧ c.toNat ≤ 90 then Char.ofNat (c.toNat + 32) else c

/-- Characters kept by the slugify `strict: true` filter: ASCII alphanumerics
and whitespace (the charmap is the identity on this ASCII range). -/
def slugKeep (c : Char) : Bool := c.isAlphanum || c.isWhitespace

/-- Replace each maximal whitespace run by a single hyphen, as the slugify
replacement step replace of the regex \s+ by a hyphen does on a trimmed string. The flag
records whether we are inside a whitespace run. -/
def collapseWsAux (inRun : Bool) : List Char → List Char
  | [] => []
  | c :: rest =>
    if c.isWhitespace then
      if inRun then collapseWsAux true rest
      else '-' :: collapseWsAux true rest
    else c :: collapseWsAux false rest

/-- Model of `slugify(title, { lower: true, strict: true })` from the npm
slugify package, on its ASCII path (the charmap is the identity there):
strict-filter to alphanumerics and whitespace, trim, collapse whitespace
runs to single hyphens, lower-case. -/
def slugify (s : String) : String :=
  ⟨(collapseWsAux false (trimListWs (s.data.filter slugKeep))).map asciiToLower⟩

/-- Candidate slug number `k` probed by the hook loop: the base slug for
`k = 0`, and `base ++ "-" ++ k` for the later attempts (`counter` starts
at 1 in the source). -/
def candidateSlug (base : String) : Nat → String
  | 0 => base
  | k + 1 => base ++ "-" ++ natDec (k + 1)

/-- Fuel-driven version of the probe loop of the hook
`while (await findOne({slug, _id: {$ne: this._id}})) slug = base-${counter++}`:
returns the index of the first candidate not among the taken slugs, fuel
permitting. -/
def probeIdx (taken : List String) (base : String) : Nat → Nat → Nat
  | 0, k => k
  | fuel + 1, k =>
    if candidateSlug base k ∈ taken then probeIdx taken base fuel (k + 1)
    else k

/-- The slug assigned by the `PostSchema.pre` validate hook given the set of slugs of
the existing posts (excluding the document being validated). Fuel
`taken.length + 1` always suffices: the candidates are pairwise distinct, so
among the first `taken.length + 1` of them one is free (proved below). -/
def generateSlug (taken : List String) (base : String) : String :=
  candidateSlug base (probeIdx taken base (taken.length + 1) 0)

/-- Slug lists produced by repeatedly creating posts (each new slug probed
against all slugs already present, then appended), starting from an empty
collection. -/
def slugsAfterCreates (base : String) : Nat → List String
  | 0 => []
  | n + 1 =>
    slugsAfterCreates base n ++ [generateSlug (slugsAfterCreates base n) base]

/-- Tags field of a request body: absent/falsy, a single comma-separated
string, or an array of strings, as accepted by the route handlers. -/
inductive TagsInput where
  | noneInput : TagsInput
  | strInput (s : String) : TagsInput
  | arrInput (l : List String) : TagsInput
deriving DecidableEq

/-- Tag processing of the create/update handlers: arrays are trimmed
entry-wise and blank results dropped (`tags.map(t => t.trim()).filter(Boolean)`);
strings are split on commas first; a falsy `tags` yields the empty list. -/
def processTags : TagsInput → List String
  | TagsInput.noneInput => []
  | TagsInput.arrInput l => (l.map jsTrim).filter (fun t => t ≠ "")
  | TagsInput.strInput s => ((jsSplitComma s).map jsTrim).filter (fun t => t ≠ "")

/-- Request body of the create/update routes. `title`, `content`, `excerpt`
and `coverImage` are JS strings where the empty string doubles for a falsy or
absent value, matching the truthiness tests of the handlers. -/
structure ReqBody where
  title : String
  content : String
  excerpt : String
  coverImage : String
  tags : TagsInput
deriving DecidableEq

/-- Fields handed to the store by the handlers after normalization:
`title.trim()`, `content.trim()`, `excerpt ? excerpt.trim() : undefined`,
`coverImage ? coverImage.trim() : undefined`, processed tags. -/
structure StoredFields where
  title : String
  content : String
  excerpt : Option String
  coverImage : Option String
  tags : List String
deriving DecidableEq

/-- A persisted post. Timestamps are omitted: no claim concerns them and the
spec delegates clock reads to the environment. -/
structure StoredPost where
  id : String
  slug : String
  title : String
  content : String
  excerpt : Option String
  coverImage : Option String
  tags : List String
deriving DecidableEq

/-- Normalization of a request body as performed inline by both the create
and the update handler. -/
def normalizeBody (b : ReqBody) : StoredFields :=
  { title := jsTrim b.title
    content := jsTrim b.content
    excerpt := if b.excerpt = "" then none else some (jsTrim b.excerpt)
    coverImage := if b.coverImage = "" then none else some (jsTrim b.coverImage)
    tags := processTags b.tags }

/-- Middle portion of a matched URL: the characters between the scheme and
the dot-extension suffix, which the regex `.+` must cover. -/
def middlePart (l : List Char) (preLen sufLen : Nat) : List Char :=
  (l.drop preLen).take (l.length - preLen - sufLen)

/-- Character matched by an unanchored regex dot (no `s` flag): anything but
a line terminator. -/
def dotMatches (c : Char) : Bool :=
  c ≠ '\n' && c ≠ '\r' && c.toNat ≠ 8232 && c.toNat ≠ 8233

/-- List-level check that `pat` is a prefix of `l`. -/
def startsWithL : List Char → List Char → Bool
  | [], _ => true
  | _ :: _, [] => false
  | p :: ps, c :: cs => p = c && startsWithL ps cs

/-- One alternative of the image-URL regex: the lowered string starts with
the scheme `pre`, ends with `'.' :: ext`, and something nonempty and free of
line terminators stands in between. -/
def matchWithExt (l : List Char) (pre ext : List Char) : Bool :=
  startsWithL pre l &&
  startsWithL ('.' :: ext).reverse l.reverse &&
  decide (pre.length + 1 + 1 + ext.length ≤ l.length) &&
  (middlePart l pre.length (ext.length + 1)).all dotMatches

/-- Embedding of the schema validator regex test
`/^https?:\/\/.+\.(jpg|jpeg|png|gif|webp)$/i.test(v)`: case-insensitivity is
realized by lower-casing the subject (the pattern letters are already lower
case). -/
def imageUrlRegexTest (v : String) : Bool :=
  let l := v.data.map asciiToLower
  (["jpg", "jpeg", "png", "gif", "webp"].map String.data).any (fun e =>
    matchWithExt l "http://".data e || matchWithExt l "https://".data e)

/-- The `coverImage` validator of the schema: empty (falsy) values pass, anything
else must match the image-URL pattern. -/
def coverImageValidatorB (v : String) : Bool :=
  if v = "" then true else imageUrlRegexTest v

/-- Concatenate error messages with `", "`, as the handlers do with
`Object.values(error.errors).map(err => err.message)` joined with a comma. -/
def joinComma : List String → String
  | [] => ""
  | [x] => x
  | x :: y :: xs => x ++ ", " ++ joinComma (y :: xs)

/-- Mongoose schema validation of the fields reaching the store (the schema
registered by the routes file): title and excerpt maxlength, cover-image URL
pattern, tag maxlength. Returns the joined messages on violation. -/
def schemaValidate (f : StoredFields) : Option String :=
  let errs : List String :=
    (if 200 < f.title.length then ["Title cannot exceed 200 characters"] else []) ++
    (match f.excerpt with
     | some e => if 500 < e.length then ["Excerpt cannot exceed 500 characters"] else []
     | none => []) ++
    (match f.coverImage with
     | some c =>
       if coverImageValidatorB c then []
       else ["Cover image must be a valid image URL (jpg, jpeg, png, gif, webp)"]
     | none => []) ++
    (if f.tags.all (fun t => t.length ≤ 50) then []
     else ["Each tag cannot exceed 50 characters"])
  if errs = [] then none else some (joinComma errs)

/-- The validation sequence shared verbatim by the create and update
handlers: `!title || !content`, trimmed title at least 3, trimmed content at
least 10, then mongoose schema validation of the normalized fields. Returns
the HTTP status and message of the first failure. -/
def bodyError (b : ReqBody) : Option (Nat × String) :=
  if b.title = "" ∨ b.content = "" then some (400, "Title and content are required")
  else if (jsTrim b.title).length < 3 then
    some (400, "Title must be at least 3 characters long")
  else if (jsTrim b.content).length < 10 then
    some (400, "Content must be at least 10 characters long")
  else
    match schemaValidate (normalizeBody b) with
    | some msg => some (400, msg)
    | none => none

/-- Hexadecimal digit, as in the 24-character ObjectId format. -/
def isHexChar (c : Char) : Bool :=
  c.isDigit || ('a' ≤ c && c ≤ 'f') || ('A' ≤ c && c ≤ 'F')

/-- Model of `mongoose.Types.ObjectId.isValid` on strings: a 24-character
hexadecimal string, or any 12-character string (read as 12 raw bytes). -/
def isValidObjectId (s : String) : Bool :=
  (s.length == 24 && s.data.all isHexChar) || s.length == 12

/-- POST /api/posts: validate, normalize, compute the slug through the
`PostSchema.pre` validate hook (probing against all existing slugs), append the new
post. Errors carry the HTTP status and message. -/
def createPost (store : List StoredPost) (newId : String) (b : ReqBody) :
    Except (Nat × String) (List StoredPost × StoredPost) :=
  match bodyError b with
  | some e => Except.error e
  | none =>
    let f := normalizeBody b
    let slug := generateSlug (store.map (fun p => p.slug)) (slugify f.title)
    let p : StoredPost :=
      { id := newId, slug := slug, title := f.title, content := f.content
        excerpt := f.excerpt, coverImage := f.coverImage, tags := f.tags }
    Except.ok (store ++ [p], p)

/-- GET /api/posts/:id: 400 on malformed id, 404 when no post has the id,
otherwise the post. -/
def getPost (store : List StoredPost) (id : String) :
    Except (Nat × String) StoredPost :=
  if isValidObjectId id then
    match store.find? (fun p => p.id == id) with
    | some p => Except.ok p
    | none => Except.error (404, "Post not found")
  else Except.error (400, "Invalid post ID")

/-- Replacement of the updatable fields, as the update document of
`findByIdAndUpdate` sets them. The slug is not part of the update document
and `findByIdAndUpdate` does not run the `PostSchema.pre` validate document
middleware, so the stored slug stays as it is. -/
def applyUpdate (p : StoredPost) (f : StoredFields) : StoredPost :=
  { p with title := f.title, content := f.content, excerpt := f.excerpt
           coverImage := f.coverImage, tags := f.tags }

/-- PUT /api/posts/:id: id format check, then the shared body validation
(including the update validators run by `runValidators: true`), then
`findByIdAndUpdate`, which yields 404 when no post matches. -/
def updatePost (store : List StoredPost) (id : String) (b : ReqBody) :
    Except (Nat × String) (List StoredPost × StoredPost) :=
  if isValidObjectId id then
    match bodyError b with
    | some e => Except.error e
    | none =>
      match store.find? (fun p => p.id == id) with
      | none => Except.error (404, "Post not found")
      | some p =>
        let p2 := applyUpdate p (normalizeBody b)
        Except.ok (store.map (fun q => if q.id == id then p2 else q), p2)
  else Except.error (400, "Invalid post ID format")

/-- DELETE /api/posts/:id: id format check, `findByIdAndDelete`, 404 when no
post matches, otherwise the store without the post plus the deleted post. -/
def deletePost (store : List StoredPost) (id : String) :
    Except (Nat × String) (List StoredPost × StoredPost) :=
  if isValidObjectId id then
    match store.find? (fun p => p.id == id) with
    | some p => Except.ok (store.eraseP (fun q => q.id == id), p)
    | none => Except.error (404, "Post not found")
  else Except.error (400, "Invalid post ID")

/-- Leading-digits parse of a query parameter, as `parseInt` reads the
decimal strings the claims concern (none models the NaN outcome). -/
def parseIntJS (s : String) : Option Nat :=
  let ds := s.data.takeWhile Char.isDigit
  if ds = [] then none else some (decodeDec 0 ds)

/-- Options handed to `Post.find` by the list handler. -/
structure FindOptions where
  sortByCreatedAtDesc : Bool
  limit : Nat
  skip : Int
deriving DecidableEq

/-- The `pagination` object of the list response (`total` and `pages` come
from the database count and are not touched by any claim). -/
structure PaginationOut where
  page : Nat
  limit : Nat
deriving DecidableEq

/-- Query options and response pagination assembled by GET /api/posts. -/
structure ListMeta where
  options : FindOptions
  pagination : PaginationOut
deriving DecidableEq

/-- GET /api/posts metadata: `limit` defaults to 10 and is capped at 50 in
the find options only (`Math.min(parseInt(limit), 50)`); the final
`pagination.limit` echoes the raw `parseInt(limit)`. -/
def listMeta (pageParam limitParam : Option String) : Option ListMeta :=
  match parseIntJS (pageParam.getD "1"), parseIntJS (limitParam.getD "10") with
  | some p, some n =>
    some { options := { sortByCreatedAtDesc := true, limit := min n 50
                        skip := ((p : Int) - 1) * (n : Int) }
           pagination := { page := p, limit := n } }
  | _, _ => none

/-- A well-formed ObjectId for test scenarios: the decimal digits of `k`
left-padded with zeros to 24 characters. -/
def mkObjectId (k : Nat) : String :=
  ⟨List.replicate (24 - (natDec k).data.length) '0' ++ (natDec k).data⟩

/-- Body used in the repeated-creation scenarios: a given title with a fixed
valid content and no optional fields. -/
def sameTitleBody (title : String) : ReqBody :=
  { title := title, content := "0123456789", excerpt := "", coverImage := ""
    tags := TagsInput.noneInput }

/-- Create `n` posts with the same title one after another, starting from an
empty collection, ids `mkObjectId 0`, `mkObjectId 1`, .... A failed creation
leaves the store as it is. -/
def createManySame (title : String) : Nat → List StoredPost
  | 0 => []
  | n + 1 =>
    let s := createManySame title n
    match createPost s (mkObjectId n) (sameTitleBody title) with
    | Except.ok (s2, _) => s2
    | Except.error _ => s

/-- Body with the given title and content and no optional fields. -/
def simpleBody (t c : String) : ReqBody :=
  { title := t, content := c, excerpt := "", coverImage := ""
    tags := TagsInput.noneInput }

/-- Slug of the post a handler returned, when it succeeded. -/
def resultSlug (r : Except (Nat × String) (List StoredPost × StoredPost)) :
    Option String :=
  match r with
  | Except.ok (_, p) => some p.slug
  | Except.error _ => none

/-- Store a handler returned, when it succeeded. -/
def resultStore (r : Except (Nat × String) (List StoredPost × StoredPost)) :
    Option (List StoredPost) :=
  match r with
  | Except.ok (s, _) => some s
  | Except.error _ => none

/-- Success test for a handler outcome. -/
def isOkE {ε α : Type} (r : Except ε α) : Bool :=
  match r with
  | Except.ok _ => true
  | Except.error _ => false

/-- Error of a handler outcome, when it failed. -/
def resultError {α : Type} (r : Except (Nat × String) α) : Option (Nat × String) :=
  match r with
  | Except.ok _ => none
  | Except.error e => some e

/-- Handler outcomes are comparable, for concrete test evaluation. -/
instance decEqExcept {ε α : Type} [DecidableEq ε] [DecidableEq α] :
    DecidableEq (Except ε α) := fun a b =>
  match a, b with
  | Except.ok x, Except.ok y =>
    if h : x = y then isTrue (by rw [h]) else isFalse (fun he => h (Except.ok.inj he))
  | Except.error x, Except.error y =>
    if h : x = y then isTrue (by rw [h]) else isFalse (fun he => h (Except.error.inj he))
  | Except.ok _, Except.error _ => isFalse (fun he => Except.noConfusion he)
  | Except.error _, Except.ok _ => isFalse (fun he => Except.noConfusion he)

/-- The post stored by the first creation of the end-to-end scenario:
title "Hello World", slug "hello-world". -/
def firstHello : StoredPost :=
  { id := mkObjectId 0, slug := "hello-world", title := "Hello World"
    content := "0123456789", excerpt := none, coverImage := none, tags := [] }

/-- The post stored by the second creation of the end-to-end scenario: same
title, probed slug "hello-world-1". -/
def secondHello : StoredPost :=
  { id := mkObjectId 1, slug := "hello-world-1", title := "Hello World"
    content := "0123456789", excerpt := none, coverImage := none, tags := [] }

theorem digitChar10_toNat (d : Nat) (h : d < 10) : (digitChar10 d).toNat - 48 = d := by
  interval_cases d <;> rfl

theorem decodeDec_natDecAux : ∀ fuel n : Nat, n ≤ fuel → ∀ (a : Nat) (acc : List Char),
    ∃ D : Nat, decodeDec a (natDecAux (fuel + 1) n acc) = decodeDec (a * 10 ^ D + n) acc := by
  intro fuel
  induction fuel with
  | zero =>
    intro n hn a acc
    have hn0 : n = 0 := Nat.le_zero.mp hn
    subst hn0
    refine ⟨1, ?_⟩
    have h1 : natDecAux 1 0 acc = '0' :: acc := rfl
    have h2 : decodeDec a ('0' :: acc) = decodeDec (a * 10 + 0) acc := rfl
    rw [h1, h2]
    norm_num
  | succ f ih =>
    intro n hn a acc
    by_cases h : n < 10
    · refine ⟨1, ?_⟩
      have h1 : natDecAux (f + 1 + 1) n acc = digitChar10 n :: acc := by
        simp [natDecAux, h]
      have h2 : decodeDec a (digitChar10 n :: acc)
          = decodeDec (a * 10 + ((digitChar10 n).toNat - 48)) acc := rfl
      rw [h1, h2, digitChar10_toNat n h]
      norm_num
    · have hge : 10 ≤ n := Nat.not_lt.mp h
      have h1 : natDecAux (f + 1 + 1) n acc
          = natDecAux (f + 1) (n / 10) (digitChar10 (n % 10) :: acc) := by
        simp [natDecAux, h]
      have hdiv : n / 10 ≤ f := by
        have := Nat.div_lt_self (by omega : 0 < n) (by norm_num : 1 < 10)
        omega
      obtain ⟨D, hD⟩ := ih (n / 10) hdiv a (digitChar10 (n % 10) :: acc)
      refine ⟨D + 1, ?_⟩
      have h2 : decodeDec (a * 10 ^ D + n / 10) (digitChar10 (n % 10) :: acc)
          = decodeDec ((a * 10 ^ D + n / 10) * 10 + ((digitChar10 (n % 10)).toNat - 48)) acc := rfl
      rw [h1, hD, h2, digitChar10_toNat (n % 10) (Nat.mod_lt n (by norm_num))]
      congr 1
      have hdm : n / 10 * 10 + n % 10 = n := by omega
      calc (a * 10 ^ D + n / 10) * 10 + n % 10
          = a * 10 ^ D * 10 + (n / 10 * 10 + n % 10) := by ring
        _ = a * 10 ^ D * 10 + n := by rw [hdm]
        _ = a * 10 ^ (D + 1) + n := by ring

theorem decodeDec_natDec (n : Nat) : decodeDec 0 (natDec n).data = n := by
  obtain ⟨D, hD⟩ := decodeDec_natDecAux n n (Nat.le_refl n) 0 []
  have h0 : (natDec n).data = natDecAux (n + 1) n [] := rfl
  rw [h0, hD]
  simp [decodeDec]

theorem natDec_inj (m n : Nat) (h : natDec m = natDec n) : m = n := by
  have hm := decodeDec_natDec m
  have hn := decodeDec_natDec n
  rw [h] at hm
  omega

theorem stringData_inj (a b : String) (h : a.data = b.data) : a = b := by
  cases a
  cases b
  exact congrArg String.mk h

theorem stringData_append (a b : String) : (a ++ b).data = a.data ++ b.data := by
  cases a
  cases b
  rfl

theorem candidateSlug_inj (base : String) (i j : Nat)
    (h : candidateSlug base i = candidateSlug base j) : i = j := by
  match i, j with
  | 0, 0 => rfl
  | 0, j + 1 =>
    exfalso
    have hlen := congrArg (fun s => s.data.length) h
    have hone : ("-" : String).data.length = 1 := rfl
    simp [candidateSlug, stringData_append, hone] at hlen
  | i + 1, 0 =>
    exfalso
    have hlen := congrArg (fun s => s.data.length) h
    have hone : ("-" : String).data.length = 1 := rfl
    simp [candidateSlug, stringData_append, hone] at hlen
  | i + 1, j + 1 =>
    have hds := congrArg String.data h
    simp only [candidateSlug, stringData_append, List.append_assoc] at hds
    have h2 := List.append_cancel_left hds
    have h3 := List.append_cancel_left h2
    have h4 := natDec_inj (i + 1) (j + 1) (stringData_inj _ _ h3)
    omega

theorem exists_free_candidate (taken : List String) (base : String) :
    ∃ j : Nat, j < taken.length + 1 ∧ candidateSlug base j ∉ taken := by
  by_contra hall
  push_neg at hall
  have hnd : ((List.range (taken.length + 1)).map (candidateSlug base)).Nodup :=
    (List.nodup_range _).map (fun a b hab => candidateSlug_inj base a b hab)
  have hsub : (List.range (taken.length + 1)).map (candidateSlug base) ⊆ taken := by
    intro x hx
    obtain ⟨j, hj, rfl⟩ := List.mem_map.mp hx
    exact hall j (List.mem_range.mp hj)
  have hlen := (List.subperm_of_subset hnd hsub).length_le
  simp at hlen

theorem probeIdx_spec (taken : List String) (base : String) :
    ∀ fuel k : Nat, (∃ j, j < fuel ∧ candidateSlug base (k + j) ∉ taken) →
      candidateSlug base (probeIdx taken base fuel k) ∉ taken ∧
      k ≤ probeIdx taken base fuel k ∧
      ∀ m, k ≤ m → m < probeIdx taken base fuel k → candidateSlug base m ∈ taken := by
  intro fuel
  induction fuel with
  | zero =>
    rintro k ⟨j, hj, _⟩
    omega
  | succ f ih =>
    rintro k ⟨j, hj, hfree⟩
    by_cases hmem : candidateSlug base k ∈ taken
    · have hred : probeIdx taken base (f + 1) k = probeIdx taken base f (k + 1) := by
        simp [probeIdx, hmem]
      cases j with
      | zero =>
        exact absurd hmem (by simpa using hfree)
      | succ j0 =>
        have hnext : candidateSlug base (k + 1 + j0) ∉ taken := by
          have he : k + 1 + j0 = k + (j0 + 1) := by omega
          rw [he]
          exact hfree
        obtain ⟨p1, p2, p3⟩ := ih (k + 1) ⟨j0, by omega, hnext⟩
        rw [hred]
        refine ⟨p1, by omega, ?_⟩
        intro m h1 h2
        rcases Nat.eq_or_lt_of_le h1 with he | hlt
        · rw [← he]
          exact hmem
        · exact p3 m hlt h2
    · have hred : probeIdx taken base (f + 1) k = k := by
        simp [probeIdx, hmem]
      rw [hred]
      exact ⟨hmem, Nat.le_refl k, fun m h1 h2 => absurd (Nat.lt_of_le_of_lt h1 h2) (Nat.lt_irrefl k)⟩

theorem probeIdx_fuel_eq (taken : List String) (base : String) (f g k : Nat)
    (hf : ∃ j, j < f ∧ candidateSlug base (k + j) ∉ taken)
    (hg : ∃ j, j < g ∧ candidateSlug base (k + j) ∉ taken) :
    probeIdx taken base f k = probeIdx taken base g k := by
  obtain ⟨f1, f2, f3⟩ := probeIdx_spec taken base f k hf
  obtain ⟨g1, g2, g3⟩ := probeIdx_spec taken base g k hg
  by_contra hne
  rcases Nat.lt_or_ge (probeIdx taken base f k) (probeIdx taken base g k) with hlt | hge
  · exact f1 (g3 _ f2 hlt)
  · have hgt : probeIdx taken base g k < probeIdx taken base f k :=
      Nat.lt_of_le_of_ne hge (fun e => hne e.symm)
    exact g1 (f3 _ g2 hgt)

theorem generateSlug_not_mem (taken : List String) (base : String) :
    generateSlug taken base ∉ taken := by
  obtain ⟨j, hj, hfree⟩ := exists_free_candidate taken base
  exact (probeIdx_spec taken base (taken.length + 1) 0 ⟨j, hj, by simpa using hfree⟩).1

theorem generateSlug_of_initial_segment (taken : List String) (base : String) (i : Nat)
    (hchar : ∀ m : Nat, candidateSlug base m ∈ taken ↔ m < i) :
    generateSlug taken base = candidateSlug base i := by
  have hfree_i : candidateSlug base i ∉ taken := fun hmem =>
    absurd ((hchar i).mp hmem) (Nat.lt_irrefl i)
  have hle : i ≤ taken.length := by
    by_contra hgt
    obtain ⟨j, hj, hfree⟩ := exists_free_candidate taken base
    exact hfree ((hchar j).mpr (by omega))
  have hex : ∃ j, j < taken.length + 1 ∧ candidateSlug base (0 + j) ∉ taken :=
    ⟨i, by omega, by simpa using hfree_i⟩
  obtain ⟨p1, p2, p3⟩ := probeIdx_spec taken base (taken.length + 1) 0 hex
  have h1 : ¬ probeIdx taken base (taken.length + 1) 0 < i := fun hlt =>
    p1 ((hchar _).mpr hlt)
  have h2 : ¬ i < probeIdx taken base (taken.length + 1) 0 := fun hlt =>
    absurd ((hchar i).mp (p3 i (Nat.zero_le i) hlt)) (Nat.lt_irrefl i)
  have heq : probeIdx taken base (taken.length + 1) 0 = i := by omega
  rw [generateSlug, heq]

theorem slugsAfterCreates_eq (base : String) :
    ∀ n : Nat, slugsAfterCreates base n = (List.range n).map (candidateSlug base) := by
  intro n
  induction n with
  | zero => rfl
  | succ k ih =>
    have hgen : generateSlug (slugsAfterCreates base k) base = candidateSlug base k := by
      rw [ih]
      apply generateSlug_of_initial_segment
      intro m
      constructor
      · intro hm
        obtain ⟨j, hj, he⟩ := List.mem_map.mp hm
        have hje := candidateSlug_inj base j m he
        rw [← hje]
        exact List.mem_range.mp hj
      · intro hm
        exact List.mem_map.mpr ⟨m, List.mem_range.mpr hm, rfl⟩
    show slugsAfterCreates base k ++ [generateSlug (slugsAfterCreates base k) base]
        = (List.range (k + 1)).map (candidateSlug base)
    rw [hgen, ih, List.range_succ, List.map_append]
    rfl

theorem ne_empty_of_trim_len (t : String) (h : 1 ≤ (jsTrim t).length) : t ≠ "" := by
  intro he
  rw [he] at h
  exact absurd h (by decide)

theorem schemaValidate_simple (t c : String) (h200 : (jsTrim t).length ≤ 200) :
    schemaValidate (normalizeBody (simpleBody t c)) = none := by
  have hn : ¬ 200 < (jsTrim t).length := by omega
  simp [schemaValidate, normalizeBody, simpleBody, processTags, hn]

theorem bodyError_none (b : ReqBody)
    (h3 : 3 ≤ (jsTrim b.title).length) (h10 : 10 ≤ (jsTrim b.content).length)
    (hsv : schemaValidate (normalizeBody b) = none) :
    bodyError b = none := by
  have ht : b.title ≠ "" := ne_empty_of_trim_len _ (by omega)
  have hc : b.content ≠ "" := ne_empty_of_trim_len _ (by omega)
  rw [bodyError]
  rw [if_neg (by simp [ht, hc])]
  rw [if_neg (by omega)]
  rw [if_neg (by omega)]
  rw [hsv]

theorem bodyError_isSome_of_title2 (b : ReqBody) (h2 : (jsTrim b.title).length = 2) :
    ∃ e, bodyError b = some e := by
  rw [bodyError]
  by_cases h0 : b.title = "" ∨ b.content = ""
  · rw [if_pos h0]
    exact ⟨_, rfl⟩
  · rw [if_neg h0, if_pos (by omega)]
    exact ⟨_, rfl⟩

theorem bodyError_isSome_of_content9 (b : ReqBody) (h9 : (jsTrim b.content).length = 9) :
    ∃ e, bodyError b = some e := by
  rw [bodyError]
  by_cases h0 : b.title = "" ∨ b.content = ""
  · rw [if_pos h0]
    exact ⟨_, rfl⟩
  · rw [if_neg h0]
    by_cases h1 : (jsTrim b.title).length < 3
    · rw [if_pos h1]
      exact ⟨_, rfl⟩
    · rw [if_neg h1, if_pos (by omega)]
      exact ⟨_, rfl⟩

theorem sameTitleBody_eq (t : String) : sameTitleBody t = simpleBody t "0123456789" := rfl

theorem createPost_of_bodyError_none (store : List StoredPost) (newId : String) (b : ReqBody)
    (h : bodyError b = none) :
    createPost store newId b = Except.ok
      (store ++ [{ id := newId
                   slug := generateSlug (store.map (fun p => p.slug)) (slugify (normalizeBody b).title)
                   title := (normalizeBody b).title
                   content := (normalizeBody b).content
                   excerpt := (normalizeBody b).excerpt
                   coverImage := (normalizeBody b).coverImage
                   tags := (normalizeBody b).tags }],
       { id := newId
         slug := generateSlug (store.map (fun p => p.slug)) (slugify (normalizeBody b).title)
         title := (normalizeBody b).title
         content := (normalizeBody b).content
         excerpt := (normalizeBody b).excerpt
         coverImage := (normalizeBody b).coverImage
         tags := (normalizeBody b).tags }) := by
  rw [createPost, h]

theorem createPost_of_bodyError_some (store : List StoredPost) (newId : String) (b : ReqBody)
    (e : Nat × String) (h : bodyError b = some e) :
    createPost store newId b = Except.error e := by
  rw [createPost, h]

theorem updatePost_ok (store : List StoredPost) (id : String) (b : ReqBody) (p : StoredPost)
    (hv : isValidObjectId id = true) (hb : bodyError b = none)
    (hf : store.find? (fun q => q.id == id) = some p) :
    updatePost store id b = Except.ok
      (store.map (fun q => if q.id == id then applyUpdate p (normalizeBody b) else q),
       applyUpdate p (normalizeBody b)) := by
  rw [updatePost, if_pos hv, hb, hf]

theorem updatePost_of_bodyError_some (store : List StoredPost) (id : String) (b : ReqBody)
    (e : Nat × String) (h : bodyError b = some e) :
    isOkE (updatePost store id b) = false := by
  rw [updatePost]
  by_cases hv : isValidObjectId id = true
  · rw [if_pos hv, h]
    rfl
  · rw [if_neg hv]
    rfl

theorem deletePost_ok_mem (store : List StoredPost) (id : String)
    (s2 : List StoredPost) (dp : StoredPost)
    (h : deletePost store id = Except.ok (s2, dp)) :
    ∀ p, p ∈ s2 → p ∈ store := by
  by_cases hv : isValidObjectId id = true
  · rw [deletePost, if_pos hv] at h
    cases hf : store.find? (fun p => p.id == id) with
    | none =>
      rw [hf] at h
      exact absurd h (by simp)
    | some q =>
      rw [hf] at h
      simp only [Except.ok.injEq, Prod.mk.injEq] at h
      intro p hp
      rw [← h.1] at hp
      exact (List.eraseP_sublist store).subset hp
  · rw [deletePost, if_neg hv] at h
    exact absurd h (by simp)

theorem createManySame_succ (title : String) (k : Nat)
    (hb : bodyError (sameTitleBody title) = none) :
    createManySame title (k + 1) = createManySame title k ++
      [{ id := mkObjectId k
         slug := generateSlug ((createManySame title k).map (fun p => p.slug))
                   (slugify (jsTrim title))
         title := jsTrim title
         content := jsTrim "0123456789"
         excerpt := none
         coverImage := none
         tags := [] }] := by
  have h := createPost_of_bodyError_none (createManySame title k) (mkObjectId k)
    (sameTitleBody title) hb
  simp only [createManySame]
  rw [h]
  simp [normalizeBody, sameTitleBody, processTags]

theorem createManySame_slugs (title : String)
    (h3 : 3 ≤ (jsTrim title).length) (h200 : (jsTrim title).length ≤ 200) :
    ∀ n : Nat, (createManySame title n).map (fun p => p.slug)
      = slugsAfterCreates (slugify (jsTrim title)) n := by
  have hb : bodyError (sameTitleBody title) = none := by
    rw [sameTitleBody_eq]
    exact bodyError_none (simpleBody title "0123456789") h3
      (by show 10 ≤ (jsTrim "0123456789").length; decide)
      (schemaValidate_simple title "0123456789" h200)
  intro n
  induction n with
  | zero => rfl
  | succ k ih =>
    rw [createManySame_succ title k hb, List.map_append, ih]
    rfl

/-- Claim C1 counterexample: with `limit=100` the `pagination.limit` of the list
response is 100, not 50 — the handler writes the raw
`parseInt(limit)` into the pagination object. -/
theorem C1_pagination_limit_counterexample :
    (listMeta (some "1") (some "100")).map (fun m => m.pagination.limit) = some 100 ∧
    (listMeta (some "1") (some "100")).map (fun m => m.pagination.limit) ≠ some 50 := by
  decide

/-- Claim C1 (amended): the find options cap the number of fetched posts at
50 (`Math.min(parseInt(limit), 50)`), but the `pagination.limit` of the response
echoes the raw parsed limit, so `limit=100` yields options limit 50 and
pagination limit 100. -/
theorem C1_limit_cap_amended :
    (∀ (pageParam limitParam : Option String) (p n : Nat),
      parseIntJS (pageParam.getD "1") = some p →
      parseIntJS (limitParam.getD "10") = some n →
      ∃ m, listMeta pageParam limitParam = some m ∧
        m.options.limit = min n 50 ∧ m.pagination.limit = n ∧ m.pagination.page = p) ∧
    (listMeta (some "1") (some "100")).map (fun m => m.options.limit) = some 50 ∧
    (listMeta (some "1") (some "100")).map (fun m => m.pagination.limit) = some 100 := by
  refine ⟨?_, by decide, by decide⟩
  intro pageParam limitParam p n hp hn
  refine ⟨{ options := { sortByCreatedAtDesc := true, limit := min n 50
                         skip := ((p : Int) - 1) * (n : Int) }
            pagination := { page := p, limit := n } }, ?_, rfl, rfl, rfl⟩
  rw [listMeta, hp, hn]

/-- Claim C1 amended witness at `page=1`, `limit=100`. -/
theorem C1_limit_cap_amended_witness :
    ∃ m, listMeta (some "1") (some "100") = some m ∧
      m.options.limit = min 100 50 ∧ m.pagination.limit = 100 ∧ m.pagination.page = 1 :=
  C1_limit_cap_amended.1 (some "1") (some "100") 1 100 (by decide) (by decide)

/-- Claim C2: the PUT handler goes through `findByIdAndUpdate`, which does
not run the `PostSchema.pre` validate document middleware and whose update document
does not set `slug`. Updating the post titled "Hello World" (slug
"hello-world") to the title "Brand New Title" keeps the slug "hello-world",
although the slug derived from the new title would be "brand-new-title". -/
theorem C2_update_does_not_recompute_slug :
    resultSlug (updatePost (createManySame "Hello World" 1) (mkObjectId 0)
      (simpleBody "Brand New Title" "0123456789")) = some "hello-world" ∧
    slugify (jsTrim "Brand New Title") = "brand-new-title" ∧
    resultSlug (updatePost (createManySame "Hello World" 1) (mkObjectId 0)
      (simpleBody "Brand New Title" "0123456789")) ≠
      some (slugify (jsTrim "Brand New Title")) := by
  decide

/-- Claim C3 counterexample: tag processing trims and drops blanks but never
removes duplicates, so the stored tags of the input `["a","a"]` are
`["a","a"]`, which is not duplicate-free. -/
theorem C3_tags_duplicates_counterexample :
    processTags (TagsInput.arrInput ["a", "a"]) = ["a", "a"] ∧
    ¬ (processTags (TagsInput.arrInput ["a", "a"])).Nodup := by
  decide

/-- Claim C3 (amended): input normalization removes blank tag entries (every
stored tag is nonempty), but duplicate entries are kept, as `["a","a"]`
shows. -/
theorem C3_tags_amended :
    (∀ i : TagsInput, (processTags i).all (fun t => t ≠ "") = true) ∧
    processTags (TagsInput.arrInput ["a", "a"]) = ["a", "a"] := by
  refine ⟨?_, by decide⟩
  intro i
  cases i with
  | noneInput => rfl
  | strInput s =>
    simp only [processTags, List.all_eq_true]
    intro t ht
    exact (List.mem_filter.mp ht).2
  | arrInput l =>
    simp only [processTags, List.all_eq_true]
    intro t ht
    exact (List.mem_filter.mp ht).2

/-- Claim C7: tags come as an array or a comma-separated string; the string
form is split on commas, each entry is trimmed, entries that become empty
are dropped, and order is preserved (the result is a sublist of the trimmed
entries); `"a, b ,, c"` gives `["a","b","c"]` and `["a","","b "]` gives
`["a","b"]`. -/
theorem C7_tag_normalization :
    processTags (TagsInput.strInput "a, b ,, c") = ["a", "b", "c"] ∧
    processTags (TagsInput.arrInput ["a", "", "b "]) = ["a", "b"] ∧
    (∀ l : List String, List.Sublist (processTags (TagsInput.arrInput l)) (l.map jsTrim)) ∧
    (∀ s : String,
      List.Sublist (processTags (TagsInput.strInput s)) ((jsSplitComma s).map jsTrim)) := by
  refine ⟨by decide, by decide, ?_, ?_⟩
  · intro l
    exact List.filter_sublist _
  · intro s
    exact List.filter_sublist _

/-- Claim C8: a non-empty cover image passes the validator exactly when it
matches the case-insensitive image-URL pattern; `"http://x.com/img.PNG"` is
accepted, `"http://x.com/img.bmp"` is rejected, and the empty (falsy) value
always passes. -/
theorem C8_cover_image :
    coverImageValidatorB "" = true ∧
    coverImageValidatorB "http://x.com/img.PNG" = true ∧
    coverImageValidatorB "http://x.com/img.bmp" = false ∧
    (∀ v : String, coverImageValidatorB v = ((v == "") || imageUrlRegexTest v)) := by
  refine ⟨by decide, by decide, by decide, ?_⟩
  intro v
  by_cases h : v = ""
  · subst h
    decide
  · rw [coverImageValidatorB, if_neg h]
    have hb : (v == "") = false := by simp [h]
    rw [hb, Bool.false_or]

/-- Claim C4: creating `n` posts with the same (valid) title one after
another assigns exactly the slugs `base`, `base-1`, ..., `base-(n-1)` in
creation order, and these are pairwise distinct. -/
theorem C4_same_title_slugs (title : String) (n : Nat)
    (h3 : 3 ≤ (jsTrim title).length) (h200 : (jsTrim title).length ≤ 200) :
    (createManySame title n).map (fun p => p.slug)
      = (List.range n).map (candidateSlug (slugify (jsTrim title))) ∧
    ((createManySame title n).map (fun p => p.slug)).Nodup := by
  have h := createManySame_slugs title h3 h200 n
  rw [h, slugsAfterCreates_eq]
  exact ⟨rfl, List.Nodup.map
    (fun a b hab => candidateSlug_inj (slugify (jsTrim title)) a b hab)
    (List.nodup_range n)⟩

/-- Claim C4 witness: three posts titled "Hello World" receive the slugs
"hello-world", "hello-world-1", "hello-world-2", all distinct. -/
theorem C4_same_title_slugs_witness :
    (createManySame "Hello World" 3).map (fun p => p.slug)
      = (List.range 3).map (candidateSlug (slugify (jsTrim "Hello World"))) ∧
    ((createManySame "Hello World" 3).map (fun p => p.slug)).Nodup :=
  C4_same_title_slugs "Hello World" 3 (by decide) (by decide)

/-- Claim C5: deleting a post keeps every remaining post verbatim (its slug
included); concretely, after creating two posts titled "Hello World" (slugs
"hello-world" and "hello-world-1"), deleting the first leaves the second
with slug "hello-world-1". -/
theorem C5_delete_preserves_other_posts :
    (∀ (store : List StoredPost) (id : String) (s2 : List StoredPost) (dp : StoredPost),
      deletePost store id = Except.ok (s2, dp) → ∀ p, p ∈ s2 → p ∈ store) ∧
    (createManySame "Hello World" 2).map (fun p => p.slug)
      = ["hello-world", "hello-world-1"] ∧
    (resultStore (deletePost (createManySame "Hello World" 2) (mkObjectId 0))).map
      (fun s => s.map (fun p => p.slug)) = some ["hello-world-1"] := by
  refine ⟨fun store id s2 dp h => deletePost_ok_mem store id s2 dp h, by decide, by decide⟩

/-- Claim C5 witness: the concrete deletion outcome of the scenario, fed
through the preservation part of the claim: the surviving post of the delete
is one of the originally created posts, unchanged. -/
theorem C5_delete_preserves_other_posts_witness :
    secondHello ∈ createManySame "Hello World" 2 :=
  C5_delete_preserves_other_posts.1 (createManySame "Hello World" 2) (mkObjectId 0)
    [secondHello] firstHello (by decide) secondHello (by decide)

/-- Claim C10: the slug probe loop terminates on every finite collection:
with fuel `taken.length + 1` the probe already reaches a candidate outside
`taken`, the index found is at most `taken.length` (so at most
`taken.length + 1` candidates are checked), every earlier candidate is
taken (lowest available suffix), larger fuel changes nothing, and the
candidates are pairwise distinct. -/
theorem C10_probe_terminates (taken : List String) (base : String) :
    generateSlug taken base
      = candidateSlug base (probeIdx taken base (taken.length + 1) 0) ∧
    candidateSlug base (probeIdx taken base (taken.length + 1) 0) ∉ taken ∧
    probeIdx taken base (taken.length + 1) 0 ≤ taken.length ∧
    (∀ m, m < probeIdx taken base (taken.length + 1) 0 → candidateSlug base m ∈ taken) ∧
    (∀ fuel, taken.length + 1 ≤ fuel →
      probeIdx taken base fuel 0 = probeIdx taken base (taken.length + 1) 0) ∧
    (∀ i j : Nat, candidateSlug base i = candidateSlug base j → i = j) := by
  obtain ⟨j, hj, hfree⟩ := exists_free_candidate taken base
  have hex : ∃ j0, j0 < taken.length + 1 ∧ candidateSlug base (0 + j0) ∉ taken :=
    ⟨j, hj, by simpa using hfree⟩
  obtain ⟨p1, p2, p3⟩ := probeIdx_spec taken base (taken.length + 1) 0 hex
  refine ⟨rfl, p1, ?_, ?_, ?_, fun i j2 hcand => candidateSlug_inj base i j2 hcand⟩
  · by_contra hgt
    push_neg at hgt
    exact hfree (p3 j (Nat.zero_le j) (by omega))
  · intro m hm
    exact p3 m (Nat.zero_le m) hm
  · intro fuel hfuel
    exact probeIdx_fuel_eq taken base fuel (taken.length + 1) 0
      ⟨j, by omega, by simpa using hfree⟩ hex

/-- Claim C10 witness: with the two slugs "a" and "a-1" taken, the probe
stops within three checks at a free candidate, and extra fuel changes
nothing. -/
theorem C10_probe_terminates_witness :
    candidateSlug "a" (probeIdx ["a", "a-1"] "a" (["a", "a-1"].length + 1) 0) ∉ ["a", "a-1"] ∧
    probeIdx ["a", "a-1"] "a" 17 0 = probeIdx ["a", "a-1"] "a" (["a", "a-1"].length + 1) 0 :=
  ⟨(C10_probe_terminates ["a", "a-1"] "a").2.1,
   (C10_probe_terminates ["a", "a-1"] "a").2.2.2.2.1 17 (by decide)⟩

/-- Claim C6: in both the create and the update route, a trimmed title of
exactly 3 characters passes validation while one of 2 characters is
rejected, and a trimmed content of exactly 10 characters passes while one of
9 characters is rejected. -/
theorem C6_length_boundaries :
    (∀ (store : List StoredPost) (newId : String) (t c : String),
      (jsTrim t).length = 3 → (jsTrim c).length = 10 →
      isOkE (createPost store newId (simpleBody t c)) = true) ∧
    (∀ (store : List StoredPost) (newId : String) (t c : String),
      (jsTrim t).length = 2 → isOkE (createPost store newId (simpleBody t c)) = false) ∧
    (∀ (store : List StoredPost) (newId : String) (t c : String),
      (jsTrim c).length = 9 → isOkE (createPost store newId (simpleBody t c)) = false) ∧
    (∀ (store : List StoredPost) (id : String) (t c : String) (p : StoredPost),
      isValidObjectId id = true → store.find? (fun q => q.id == id) = some p →
      (jsTrim t).length = 3 → (jsTrim c).length = 10 →
      isOkE (updatePost store id (simpleBody t c)) = true) ∧
    (∀ (store : List StoredPost) (id : String) (t c : String),
      (jsTrim t).length = 2 → isOkE (updatePost store id (simpleBody t c)) = false) ∧
    (∀ (store : List StoredPost) (id : String) (t c : String),
      (jsTrim c).length = 9 → isOkE (updatePost store id (simpleBody t c)) = false) := by
  have hok : ∀ t c : String, (jsTrim t).length = 3 → (jsTrim c).length = 10 →
      bodyError (simpleBody t c) = none := fun t c h3 h10 =>
    bodyError_none (simpleBody t c)
      (show 3 ≤ (jsTrim t).length by omega)
      (show 10 ≤ (jsTrim c).length by omega)
      (schemaValidate_simple t c (by omega))
  refine ⟨?_, ?_, ?_, ?_, ?_, ?_⟩
  · intro store newId t c h3 h10
    rw [createPost_of_bodyError_none store newId (simpleBody t c) (hok t c h3 h10)]
    rfl
  · intro store newId t c h2
    obtain ⟨e, he⟩ := bodyError_isSome_of_title2 (simpleBody t c) h2
    rw [createPost_of_bodyError_some store newId (simpleBody t c) e he]
    rfl
  · intro store newId t c h9
    obtain ⟨e, he⟩ := bodyError_isSome_of_content9 (simpleBody t c) h9
    rw [createPost_of_bodyError_some store newId (simpleBody t c) e he]
    rfl
  · intro store id t c p hv hf h3 h10
    rw [updatePost_ok store id (simpleBody t c) p hv (hok t c h3 h10) hf]
    rfl
  · intro store id t c h2
    obtain ⟨e, he⟩ := bodyError_isSome_of_title2 (simpleBody t c) h2
    exact updatePost_of_bodyError_some store id (simpleBody t c) e he
  · intro store id t c h9
    obtain ⟨e, he⟩ := bodyError_isSome_of_content9 (simpleBody t c) h9
    exact updatePost_of_bodyError_some store id (simpleBody t c) e he

/-- Claim C6 witness: all six boundary cases at concrete titles and
contents (3- versus 2-character titles, 10- versus 9-character contents). -/
theorem C6_length_boundaries_witness :
    isOkE (createPost [] (mkObjectId 0) (simpleBody "abc" "0123456789")) = true ∧
    isOkE (createPost [] (mkObjectId 0) (simpleBody "ab" "0123456789")) = false ∧
    isOkE (createPost [] (mkObjectId 0) (simpleBody "abc" "012345678")) = false ∧
    isOkE (updatePost (createManySame "Hello World" 1) (mkObjectId 0)
      (simpleBody "abc" "0123456789")) = true ∧
    isOkE (updatePost [] (mkObjectId 0) (simpleBody "ab" "0123456789")) = false ∧
    isOkE (updatePost [] (mkObjectId 0) (simpleBody "abc" "012345678")) = false :=
  ⟨C6_length_boundaries.1 [] (mkObjectId 0) "abc" "0123456789" (by decide) (by decide),
   C6_length_boundaries.2.1 [] (mkObjectId 0) "ab" "0123456789" (by decide),
   C6_length_boundaries.2.2.1 [] (mkObjectId 0) "abc" "012345678" (by decide),
   C6_length_boundaries.2.2.2.1 (createManySame "Hello World" 1) (mkObjectId 0)
     "abc" "0123456789" firstHello (by decide) (by decide) (by decide) (by decide),
   C6_length_boundaries.2.2.2.2.1 [] (mkObjectId 0) "ab" "0123456789" (by decide),
   C6_length_boundaries.2.2.2.2.2 [] (mkObjectId 0) "abc" "012345678" (by decide)⟩

/-- Claim C9 counterexample: an update with a well-formed id that matches no
stored post but an invalid body fails with 400 (the body validation message),
not with 404 as the claim states for every well-formed unknown id. -/
theorem C9_update_404_counterexample :
    isValidObjectId "aaaaaaaaaaaaaaaaaaaaaaaa" = true ∧
    List.find? (fun p => p.id == "aaaaaaaaaaaaaaaaaaaaaaaa") ([] : List StoredPost) = none ∧
    updatePost [] "aaaaaaaaaaaaaaaaaaaaaaaa" (simpleBody "abc" "short")
      = Except.error (400, "Content must be at least 10 characters long") := by
  refine ⟨by decide, rfl, by decide⟩

/-- Claim C9 (amended): get and delete behave exactly as claimed (400 on a
malformed id, 404 on a well-formed id that matches no post, success only on
a well-formed id of an existing post). For update, the id-format check still
comes first, but body validation precedes the existence check: a well-formed
unknown id yields 404 only when the body is valid, and an invalid body
yields 400 even for an unknown id; success requires a well-formed id, a
valid body, and an existing post. -/
theorem C9_id_errors_amended :
    (∀ (store : List StoredPost) (id : String), isValidObjectId id = false →
      getPost store id = Except.error (400, "Invalid post ID")) ∧
    (∀ (store : List StoredPost) (id : String), isValidObjectId id = true →
      store.find? (fun p => p.id == id) = none →
      getPost store id = Except.error (404, "Post not found")) ∧
    (∀ (store : List StoredPost) (id : String) (p : StoredPost), isValidObjectId id = true →
      store.find? (fun q => q.id == id) = some p → getPost store id = Except.ok p) ∧
    (∀ (store : List StoredPost) (id : String), isValidObjectId id = false →
      deletePost store id = Except.error (400, "Invalid post ID")) ∧
    (∀ (store : List StoredPost) (id : String), isValidObjectId id = true →
      store.find? (fun p => p.id == id) = none →
      deletePost store id = Except.error (404, "Post not found")) ∧
    (∀ (store : List StoredPost) (id : String) (p : StoredPost), isValidObjectId id = true →
      store.find? (fun q => q.id == id) = some p →
      deletePost store id = Except.ok (store.eraseP (fun q => q.id == id), p)) ∧
    (∀ (store : List StoredPost) (id : String) (b : ReqBody), isValidObjectId id = false →
      updatePost store id b = Except.error (400, "Invalid post ID format")) ∧
    (∀ (store : List StoredPost) (id : String) (b : ReqBody) (e : Nat × String),
      isValidObjectId id = true → bodyError b = some e →
      updatePost store id b = Except.error e) ∧
    (∀ (store : List StoredPost) (id : String) (b : ReqBody), isValidObjectId id = true →
      bodyError b = none → store.find? (fun p => p.id == id) = none →
      updatePost store id b = Except.error (404, "Post not found")) ∧
    (∀ (store : List StoredPost) (id : String) (b : ReqBody) (p : StoredPost),
      isValidObjectId id = true → bodyError b = none →
      store.find? (fun q => q.id == id) = some p →
      updatePost store id b = Except.ok
        (store.map (fun q => if q.id == id then applyUpdate p (normalizeBody b) else q),
         applyUpdate p (normalizeBody b))) := by
  refine ⟨?_, ?_, ?_, ?_, ?_, ?_, ?_, ?_, ?_, ?_⟩
  · intro store id hv
    rw [getPost, if_neg (by simp [hv])]
  · intro store id hv hf
    rw [getPost, if_pos hv, hf]
  · intro store id p hv hf
    rw [getPost, if_pos hv, hf]
  · intro store id hv
    rw [deletePost, if_neg (by simp [hv])]
  · intro store id hv hf
    rw [deletePost, if_pos hv, hf]
  · intro store id p hv hf
    rw [deletePost, if_pos hv, hf]
  · intro store id b hv
    rw [updatePost, if_neg (by simp [hv])]
  · intro store id b e hv hb
    rw [updatePost, if_pos hv, hb]
  · intro store id b hv hb hf
    rw [updatePost, if_pos hv, hb, hf]
  · intro store id b p hv hb hf
    exact updatePost_ok store id b p hv hb hf

/-- Claim C9 amended witness: each of the ten cases at a concrete store, id
and body. -/
theorem C9_id_errors_amended_witness :
    getPost [] "zz" = Except.error (400, "Invalid post ID") ∧
    getPost [] (mkObjectId 0) = Except.error (404, "Post not found") ∧
    getPost [firstHello] (mkObjectId 0) = Except.ok firstHello ∧
    deletePost [] "zz" = Except.error (400, "Invalid post ID") ∧
    deletePost [] (mkObjectId 0) = Except.error (404, "Post not found") ∧
    deletePost [firstHello] (mkObjectId 0)
      = Except.ok ([firstHello].eraseP (fun q => q.id == mkObjectId 0), firstHello) ∧
    updatePost [] "zz" (simpleBody "abc" "0123456789")
      = Except.error (400, "Invalid post ID format") ∧
    updatePost [] (mkObjectId 0) (simpleBody "ab" "0123456789")
      = Except.error (400, "Title must be at least 3 characters long") ∧
    updatePost [] (mkObjectId 0) (simpleBody "abc" "0123456789")
      = Except.error (404, "Post not found") ∧
    updatePost [firstHello] (mkObjectId 0) (simpleBody "abc" "0123456789")
      = Except.ok
        ([firstHello].map (fun q => if q.id == mkObjectId 0 then
            applyUpdate firstHello (normalizeBody (simpleBody "abc" "0123456789")) else q),
         applyUpdate firstHello (normalizeBody (simpleBody "abc" "0123456789"))) :=
  ⟨C9_id_errors_amended.1 [] "zz" (by decide),
   C9_id_errors_amended.2.1 [] (mkObjectId 0) (by decide) rfl,
   C9_id_errors_amended.2.2.1 [firstHello] (mkObjectId 0) firstHello (by decide) (by decide),
   C9_id_errors_amended.2.2.2.1 [] "zz" (by decide),
   C9_id_errors_amended.2.2.2.2.1 [] (mkObjectId 0) (by decide) rfl,
   C9_id_errors_amended.2.2.2.2.2.1 [firstHello] (mkObjectId 0) firstHello
     (by decide) (by decide),
   C9_id_errors_amended.2.2.2.2.2.2.1 [] "zz" (simpleBody "abc" "0123456789") (by decide),
   C9_id_errors_amended.2.2.2.2.2.2.2.1 [] (mkObjectId 0) (simpleBody "ab" "0123456789")
     (400, "Title must be at least 3 characters long") (by decide) (by decide),
   C9_id_errors_amended.2.2.2.2.2.2.2.2.1 [] (mkObjectId 0) (simpleBody "abc" "0123456789")
     (by decide) (by decide) rfl,
   C9_id_errors_amended.2.2.2.2.2.2.2.2.2 [firstHello] (mkObjectId 0)
     (simpleBody "abc" "0123456789") firstHello (by decide) (by decide) (by decide)⟩
